import Mathlib

/-!
# Timer Session Engine — shallow embedding of `src/App.tsx`

This file embeds the timer session lifecycle and countdown engine of the
repository's `App` component. JavaScript numbers carrying wall-clock
milliseconds and progress percentages are modelled as rationals (`ℚ`);
`durationMinutes` and the displayed `timeLeft` seconds are integers.

React `useState`/`useRef` cells become fields of an explicit `AppState`
record, and each handler becomes a state-transformer. The browser's
`window.setInterval` registry is modelled by the list `activeIntervals`
of live interval ids (the engine's own `timerIdRef` tracks at most one of
them); a tick callback fires only while some interval is live. The two
asynchronous fetches (`getMotivationalTip`, `getCelebrationMessage`) are
split, as the event loop splits them, into the synchronous prefix of the
handler (which dispatches the fetch) and a resolution step applied when
the promise settles; a settled promise is an `Except Unit String`
(`Except.error` = rejection). Fire-and-forget cue calls
(`audioService.play*`) return nothing to the engine and are not modelled.

Ghost instrumentation (not present in the source, observationally
neutral): `completeCount` counts invocations of `handleComplete`,
`loggedErrors` counts errors caught and logged via `console.error`, and
`uncaughtRejection` records that a promise rejection escaped a handler
uncaught.
-/

/-- `AppStage` from `types.ts`. -/
inductive AppStage where
  | SETUP
  | RUNNING
  | PAUSED
  | COMPLETED
  deriving DecidableEq

/-- `GoalCategory` from `types.ts`. -/
inductive GoalCategory where
  | FOCUS
  | CREATIVE
  | CHORE
  | LEARNING
  | REST
  deriving DecidableEq

/-- `TimerSession` from `types.ts`. -/
structure TimerSession where
  durationMinutes : ℤ
  category : GoalCategory
  intention : String
  aiMotivation : Option String := none
  completedAt : Option ℚ := none
  deriving DecidableEq

/-- `HistoryItem` from `types.ts`: a `TimerSession` plus a unique id. -/
structure HistoryItem extends TimerSession where
  id : String
  deriving DecidableEq

/-- The engine's state: the `useState` cells, the three refs, the
`setInterval` registry, the persistence store contents, the pending
promises, and the ghost counters. -/
structure AppState where
  stage : AppStage
  session : TimerSession
  timeLeft : ℤ
  smoothProgress : ℚ
  motivationLoading : Bool
  celebrationMsg : String
  endTimeRef : Option ℚ
  timerIdRef : Option ℕ
  totalDurationRef : ℚ
  activeIntervals : List ℕ
  nextIntervalId : ℕ
  history : List HistoryItem
  pendingTipFetch : Bool
  pendingCelebrationFetch : Option GoalCategory
  loggedErrors : ℕ
  uncaughtRejection : Bool
  completeCount : ℕ
  deriving DecidableEq

/-- The percentage recomputed by the tick callback:
`Math.max(0, (diff / totalDurationRef.current) * 100)`. -/
def tickPercentage (diff total : ℚ) : ℚ :=
  max 0 (diff / total * 100)

/-- The clamp the spec's words call for, `clamp(x, 0, 100)` — written from
the spec for comparison with `tickPercentage`, which the source computes. -/
def specClamp (x : ℚ) : ℚ :=
  min 100 (max 0 x)

/-- Modelled from the spec: `saveSession` lives in
`services/storageService`, which is not among the sources (only its
caller `App.tsx` is). Per the spec, append is best-effort — a failed
append is logged and handled by the persistence collaborator and does not
propagate to the engine — and the persisted `HistoryItem` carries the
session's fields with `completedAt` stamped at completion time and a
fresh unique `id`. The `ok` flag selects success or failure of the
append. -/
def saveSession (ok : Bool) (sess : TimerSession) (now : ℚ)
    (hist : List HistoryItem) (fresh : String) : List HistoryItem :=
  if ok then
    hist ++ [{ toTimerSession := { sess with completedAt := some now }, id := fresh }]
  else hist

/-- Synchronous part of `handleComplete` (everything before the `await`):
clears the tracked interval (`timerIdRef` itself is NOT nulled, as in the
source), appends to the persistence store, enters COMPLETED, forces
`timeLeft = 0` and `smoothProgress = 0`, and dispatches the celebration
fetch keyed on the session's category. -/
def handleComplete (s : AppState) (now : ℚ) (appendOk : Bool)
    (fresh : String) : AppState :=
  { s with
    activeIntervals :=
      match s.timerIdRef with
      | some n => s.activeIntervals.filter (fun m => m ≠ n)
      | none => s.activeIntervals
    history := saveSession appendOk s.session now s.history fresh
    stage := AppStage.COMPLETED
    timeLeft := 0
    smoothProgress := 0
    pendingCelebrationFetch := some s.session.category
    completeCount := s.completeCount + 1 }

/-- One firing of the interval callback installed by `handleStart` /
`handleResume`, at wall-clock time `now`. The callback runs only while an
interval is live; it returns early when `endTimeRef` is null; with
`diff = endTimeRef − now` it invokes `handleComplete` when `diff ≤ 0` and
otherwise recomputes `smoothProgress` and `timeLeft = ⌈diff / 1000⌉`. -/
def tickOnce (s : AppState) (now : ℚ) (appendOk : Bool)
    (fresh : String) : AppState :=
  if s.activeIntervals = [] then s
  else
    match s.endTimeRef with
    | none => s
    | some e =>
      let diff := e - now
      if diff ≤ 0 then handleComplete s now appendOk fresh
      else
        { s with
          smoothProgress := tickPercentage diff s.totalDurationRef
          timeLeft := ⌈diff / 1000⌉ }

/-- Synchronous part of `handleStart` at wall-clock time `now`: enters
RUNNING, sets `totalDurationRef = durationMinutes*60*1000`,
`timeLeft = durationMinutes*60`, `smoothProgress = 100`,
`endTimeRef = now + durationMs`, installs a new interval (without
clearing any prior one — the source calls `window.setInterval` and
overwrites `timerIdRef`), and, when `intention` is non-empty, sets
`motivationLoading` and dispatches the motivational-tip fetch. -/
def handleStart (s : AppState) (now : ℚ) : AppState :=
  let durationMs : ℚ := (s.session.durationMinutes : ℚ) * 60 * 1000
  { s with
    stage := AppStage.RUNNING
    totalDurationRef := durationMs
    timeLeft := s.session.durationMinutes * 60
    smoothProgress := 100
    endTimeRef := some (now + durationMs)
    timerIdRef := some s.nextIntervalId
    activeIntervals := s.nextIntervalId :: s.activeIntervals
    nextIntervalId := s.nextIntervalId + 1
    motivationLoading := s.session.intention ≠ ""
    pendingTipFetch := s.session.intention ≠ "" }

/-- Resolution of the motivational-tip promise dispatched by
`handleStart`. Success attaches the tip to the session; rejection is
caught by the `try/catch` in `handleStart` and logged via
`console.error`; the `finally` clears `motivationLoading` either way. -/
def resolveMotivationalTip (res : Except Unit String) (s : AppState) : AppState :=
  match res with
  | Except.ok tip =>
    { s with
      session := { s.session with aiMotivation := some tip }
      motivationLoading := false
      pendingTipFetch := false }
  | Except.error _ =>
    { s with
      loggedErrors := s.loggedErrors + 1
      motivationLoading := false
      pendingTipFetch := false }

/-- Resolution of the celebration-message promise awaited by
`handleComplete`. The source has no `try/catch` here: success stores the
message; rejection escapes `handleComplete` as an uncaught promise
rejection and `celebrationMsg` keeps its previous value. -/
def resolveCelebration (res : Except Unit String) (s : AppState) : AppState :=
  match res with
  | Except.ok msg =>
    { s with celebrationMsg := msg, pendingCelebrationFetch := none }
  | Except.error _ =>
    { s with uncaughtRejection := true, pendingCelebrationFetch := none }

/-- `handlePause`: clears (and nulls) the tracked interval when one is
tracked, then enters PAUSED. `smoothProgress`/`timeLeft` are left frozen
at their last computed values. -/
def handlePause (s : AppState) : AppState :=
  let s1 :=
    match s.timerIdRef with
    | some n =>
      { s with
        activeIntervals := s.activeIntervals.filter (fun m => m ≠ n)
        timerIdRef := none }
    | none => s
  { s1 with stage := AppStage.PAUSED }

/-- `handleResume` at wall-clock time `now`: recomputes
`endTimeRef = now + (smoothProgress/100) * totalDurationRef`, enters
RUNNING, and installs a new interval — without clearing any prior one
(the source overwrites `timerIdRef` directly). -/
def handleResume (s : AppState) (now : ℚ) : AppState :=
  let remainingMs := s.smoothProgress / 100 * s.totalDurationRef
  { s with
    endTimeRef := some (now + remainingMs)
    stage := AppStage.RUNNING
    timerIdRef := some s.nextIntervalId
    activeIntervals := s.nextIntervalId :: s.activeIntervals
    nextIntervalId := s.nextIntervalId + 1 }

/-- The component's initial state: the `useState` initializers of
`App.tsx` (default session 25-minute FOCUS with empty intention,
`timeLeft = 25*60`, `smoothProgress = 100`), null refs, no live
intervals, empty store. -/
def state0 : AppState :=
  { stage := AppStage.SETUP
    session :=
      { durationMinutes := 25
        category := GoalCategory.FOCUS
        intention := ""
        aiMotivation := none
        completedAt := none }
    timeLeft := 25 * 60
    smoothProgress := 100
    motivationLoading := false
    celebrationMsg := ""
    endTimeRef := none
    timerIdRef := none
    totalDurationRef := 0
    activeIntervals := []
    nextIntervalId := 0
    history := []
    pendingTipFetch := false
    pendingCelebrationFetch := none
    loggedErrors := 0
    uncaughtRejection := false
    completeCount := 0 }

/-- A state with `durationMinutes = 0`, as a configuration with a
non-positive duration handed to `handleStart`. -/
def zeroDurationState : AppState :=
  { state0 with session := { state0.session with durationMinutes := 0 } }

/-- A concrete RUNNING state as produced by starting the spec's scenario
session (`FOCUS`, 25 minutes, intention "Finish report") at wall-clock 0:
one live interval tracked by `timerIdRef`, `endTimeRef = 1500000`,
`totalDurationRef = 1500000`. -/
def runningState : AppState :=
  { stage := AppStage.RUNNING
    session :=
      { durationMinutes := 25
        category := GoalCategory.FOCUS
        intention := "Finish report"
        aiMotivation := none
        completedAt := none }
    timeLeft := 1500
    smoothProgress := 100
    motivationLoading := false
    celebrationMsg := ""
    endTimeRef := some 1500000
    timerIdRef := some 0
    totalDurationRef := 1500000
    activeIntervals := [0]
    nextIntervalId := 1
    history := []
    pendingTipFetch := true
    pendingCelebrationFetch := none
    loggedErrors := 0
    uncaughtRejection := false
    completeCount := 0 }

/-- A concrete PAUSED state: interval cleared and `timerIdRef` nulled by
`handlePause`, countdown frozen at 92%. -/
def pausedState : AppState :=
  { runningState with
    stage := AppStage.PAUSED
    timerIdRef := none
    activeIntervals := []
    smoothProgress := 92
    timeLeft := 1380 }

/-- A concrete RUNNING state whose `endTimeRef` lies more than
`totalDurationRef` in the future of the sampling instant (as happens when
the wall clock is stepped backwards after `start()`). -/
def overshootState : AppState :=
  { runningState with endTimeRef := some 2500000 }

/-- A concrete COMPLETED state with the celebration fetch in flight, as
left by the synchronous part of `handleComplete`. -/
def completedState : AppState :=
  { runningState with
    stage := AppStage.COMPLETED
    timeLeft := 0
    smoothProgress := 0
    activeIntervals := []
    pendingCelebrationFetch := some GoalCategory.FOCUS }


/-! ## Helper lemmas about the tick callback and the handlers -/

/-- With no live interval, the tick callback never fires. -/
theorem tickOnce_idle (s : AppState) (now : ℚ) (ok : Bool) (fr : String)
    (hact : s.activeIntervals = []) : tickOnce s now ok fr = s := by
  unfold tickOnce
  rw [if_pos hact]

/-- A tick at or past the deadline invokes `handleComplete`. -/
theorem tickOnce_complete (s : AppState) (now : ℚ) (ok : Bool) (fr : String)
    (e : ℚ) (hact : s.activeIntervals ≠ []) (he : s.endTimeRef = some e)
    (hle : e ≤ now) : tickOnce s now ok fr = handleComplete s now ok fr := by
  unfold tickOnce
  rw [if_neg hact, he]
  dsimp only
  rw [if_pos (by linarith : e - now ≤ 0)]

/-- A tick strictly before the deadline recomputes the derived countdown
values from the wall clock. -/
theorem tickOnce_run (s : AppState) (now : ℚ) (ok : Bool) (fr : String)
    (e : ℚ) (hact : s.activeIntervals ≠ []) (he : s.endTimeRef = some e)
    (hlt : now < e) :
    tickOnce s now ok fr =
      { s with
        smoothProgress := tickPercentage (e - now) s.totalDurationRef
        timeLeft := ⌈(e - now) / 1000⌉ } := by
  unfold tickOnce
  rw [if_neg hact, he]
  dsimp only
  rw [if_neg (by push_neg; linarith : ¬ e - now ≤ 0)]

/-- `handlePause` freezes `smoothProgress` at its last computed value. -/
theorem handlePause_smoothProgress (s : AppState) :
    (handlePause s).smoothProgress = s.smoothProgress := by
  unfold handlePause
  cases hs : s.timerIdRef <;> rfl

/-- `handlePause` does not touch `totalDurationRef`. -/
theorem handlePause_totalDurationRef (s : AppState) :
    (handlePause s).totalDurationRef = s.totalDurationRef := by
  unfold handlePause
  cases hs : s.timerIdRef <;> rfl

/-! ## Claim theorems -/

/-- C7: for every valid `durationMinutes > 0`, calling `start()` and
immediately sampling the countdown yields `remainingPercentage = 100` and
`remainingSeconds = durationMinutes * 60`. -/
theorem start_initial_sample (s : AppState) (now : ℚ)
    (_hd : 0 < s.session.durationMinutes) :
    (handleStart s now).smoothProgress = 100 ∧
    (handleStart s now).timeLeft = s.session.durationMinutes * 60 :=
  ⟨rfl, rfl⟩

/-- Witness for C7 at the component's initial 25-minute configuration. -/
theorem start_initial_sample_witness :
    0 < state0.session.durationMinutes ∧
    ((handleStart state0 0).smoothProgress = 100 ∧
     (handleStart state0 0).timeLeft = state0.session.durationMinutes * 60) :=
  ⟨by decide, start_initial_sample state0 0 (by decide)⟩

/-- C3 counterexample: `handleStart` performs no validation — on a
configuration with `durationMinutes = 0` the machine leaves SETUP. -/
theorem start_no_validation_cex :
    zeroDurationState.session.durationMinutes ≤ 0 ∧
    (handleStart zeroDurationState 0).stage ≠ AppStage.SETUP := by
  decide

/-- C3 (amended): `start()` does not validate `durationMinutes`; it
transitions to RUNNING unconditionally, and with `durationMinutes ≤ 0`
the deadline is already past, so the very first tick invokes
`complete()`. -/
theorem start_unvalidated (s : AppState) (now : ℚ) (ok : Bool) (fr : String)
    (hd : s.session.durationMinutes ≤ 0) :
    (handleStart s now).stage = AppStage.RUNNING ∧
    (tickOnce (handleStart s now) now ok fr).stage = AppStage.COMPLETED := by
  refine ⟨rfl, ?_⟩
  have hd0 : (s.session.durationMinutes : ℚ) ≤ 0 := by exact_mod_cast hd
  have hD : (s.session.durationMinutes : ℚ) * 60 * 1000 ≤ 0 := by nlinarith
  have he : (handleStart s now).endTimeRef =
      some (now + (s.session.durationMinutes : ℚ) * 60 * 1000) := rfl
  have hact : (handleStart s now).activeIntervals ≠ [] := by
    simp [handleStart]
  rw [tickOnce_complete (handleStart s now) now ok fr _ hact he (by linarith)]
  rfl

/-- Witness for C3's amended theorem at a zero-duration configuration. -/
theorem start_unvalidated_witness :
    zeroDurationState.session.durationMinutes ≤ 0 ∧
    ((handleStart zeroDurationState 0).stage = AppStage.RUNNING ∧
     (tickOnce (handleStart zeroDurationState 0) 0 true "w3").stage =
       AppStage.COMPLETED) :=
  ⟨by decide, start_unvalidated zeroDurationState 0 true "w3" (by decide)⟩

/-- C4 counterexample: `resume()` on an already-RUNNING machine is not a
no-op — it installs a second interval without halting the first, so two
periodic tasks are live at once. -/
theorem resume_on_running_cex :
    (handleStart state0 0).stage = AppStage.RUNNING ∧
    (handleStart state0 0).activeIntervals.length = 1 ∧
    (handleResume (handleStart state0 0) 0).stage = AppStage.RUNNING ∧
    (handleResume (handleStart state0 0) 0).activeIntervals.length = 2 := by
  decide

/-- C4 (amended): `pause()` on an already-PAUSED machine (tracked interval
already cleared) is a no-op, but neither `start()` nor `resume()` halts a
prior periodic task: each installs one more live interval. -/
theorem pause_idempotent_resume_leaks (s : AppState) (now : ℚ)
    (hstage : s.stage = AppStage.PAUSED) (hid : s.timerIdRef = none) :
    handlePause s = s ∧
    (handleResume s now).activeIntervals.length = s.activeIntervals.length + 1 ∧
    (handleStart s now).activeIntervals.length = s.activeIntervals.length + 1 := by
  refine ⟨?_, rfl, rfl⟩
  unfold handlePause
  rw [hid]
  dsimp only
  cases s
  simp_all

/-- Witness for C4's amended theorem at a concrete paused state. -/
theorem pause_idempotent_resume_leaks_witness :
    (pausedState.stage = AppStage.PAUSED ∧ pausedState.timerIdRef = none) ∧
    (handlePause pausedState = pausedState ∧
     (handleResume pausedState 0).activeIntervals.length =
       pausedState.activeIntervals.length + 1 ∧
     (handleStart pausedState 0).activeIntervals.length =
       pausedState.activeIntervals.length + 1) :=
  ⟨⟨by decide, by decide⟩,
   pause_idempotent_resume_leaks pausedState 0 (by decide) (by decide)⟩

/-- C9 counterexample: a rejection of the celebration fetch is not caught
by the engine — it escapes `handleComplete` uncaught and unlogged (though
the machine stays COMPLETED). -/
theorem celebration_failure_uncaught_cex :
    (resolveCelebration (Except.error ()) completedState).uncaughtRejection = true ∧
    (resolveCelebration (Except.error ()) completedState).loggedErrors =
      completedState.loggedErrors ∧
    (resolveCelebration (Except.error ()) completedState).stage =
      AppStage.COMPLETED := by
  decide

/-- C9 (amended): a failed motivational-tip fetch is caught and logged by
`handleStart`'s try/catch, changes no state-machine state and leaves the
session (hence the fallback text) untouched; a failed celebration fetch
likewise never reverts a transition and leaves `celebrationMsg` at its
fallback, but it is not caught by the engine — the rejection escapes
`handleComplete`. -/
theorem advisory_failure_handling (s : AppState) :
    (resolveMotivationalTip (Except.error ()) s).stage = s.stage ∧
    (resolveMotivationalTip (Except.error ()) s).session = s.session ∧
    (resolveMotivationalTip (Except.error ()) s).loggedErrors = s.loggedErrors + 1 ∧
    (resolveMotivationalTip (Except.error ()) s).uncaughtRejection = s.uncaughtRejection ∧
    (resolveCelebration (Except.error ()) s).stage = s.stage ∧
    (resolveCelebration (Except.error ()) s).celebrationMsg = s.celebrationMsg ∧
    (resolveCelebration (Except.error ()) s).uncaughtRejection = true :=
  ⟨rfl, rfl, rfl, rfl, rfl, rfl, rfl⟩

/-- Clearing the single live interval tracked by `timerIdRef` empties the
interval registry. -/
theorem handleComplete_halts (s : AppState) (now : ℚ) (ok : Bool)
    (fr : String) (n : ℕ) (hti : s.timerIdRef = some n)
    (hact : s.activeIntervals = [n]) :
    (handleComplete s now ok fr).activeIntervals = [] := by
  unfold handleComplete
  dsimp only
  rw [hti, hact]
  simp

/-- C1: for a paused session, `resume()` recomputes
`endTimestamp = now + (remainingPercentage/100) * totalDurationMs` from
the frozen percentage, so the remaining time immediately after resume
equals the remaining time frozen at pause (`e - t₁`), whatever the paused
dwell time `t₂ - t₁` was. -/
theorem resume_excludes_pause_dwell (s : AppState) (e t₁ t₂ : ℚ)
    (ok : Bool) (fr : String)
    (hT : 0 < s.totalDurationRef) (he : s.endTimeRef = some e)
    (hact : s.activeIntervals ≠ []) (ht : t₁ < e) :
    (handleResume (handlePause (tickOnce s t₁ ok fr)) t₂).endTimeRef =
      some (t₂ + (e - t₁)) := by
  rw [tickOnce_run s t₁ ok fr e hact he ht]
  unfold handleResume
  dsimp only
  rw [handlePause_smoothProgress, handlePause_totalDurationRef]
  dsimp only
  have h1 : (0:ℚ) ≤ e - t₁ := by linarith
  have hp : tickPercentage (e - t₁) s.totalDurationRef =
      (e - t₁) / s.totalDurationRef * 100 :=
    max_eq_right (mul_nonneg (div_nonneg h1 (le_of_lt hT)) (by norm_num))
  rw [hp]
  have hT0 : s.totalDurationRef ≠ 0 := ne_of_gt hT
  congr 1
  field_simp
  ring

/-- Witness for C1: pause at 2 simulated minutes into a 25-minute session,
resume much later; the remaining time right after resume is the 23 minutes
that remained at the pause. -/
theorem resume_excludes_pause_dwell_witness :
    (0 < runningState.totalDurationRef ∧
     runningState.endTimeRef = some 1500000 ∧
     runningState.activeIntervals ≠ [] ∧ (120000:ℚ) < 1500000) ∧
    (handleResume (handlePause (tickOnce runningState 120000 true "w1"))
        500000).endTimeRef = some (500000 + (1500000 - 120000)) :=
  ⟨⟨by decide, by decide, by decide, by decide⟩,
   resume_excludes_pause_dwell runningState 1500000 120000 500000 true "w1"
     (by decide) (by decide) (by decide) (by decide)⟩

/-- C2: for a RUNNING session with one live ticker, a tick at or past the
deadline invokes `complete()` exactly once: the completion empties the
interval registry (halting recomputation), forces `timeLeft = 0` and
`smoothProgress = 0`, and any later tick is inert and cannot invoke
`complete()` again. -/
theorem complete_fires_exactly_once (s : AppState) (n : ℕ) (e t₁ t₂ : ℚ)
    (ok ok₂ : Bool) (fr fr₂ : String)
    (_hstage : s.stage = AppStage.RUNNING)
    (hti : s.timerIdRef = some n) (hact : s.activeIntervals = [n])
    (he : s.endTimeRef = some e) (ht : e ≤ t₁) :
    (tickOnce s t₁ ok fr).completeCount = s.completeCount + 1 ∧
    (tickOnce s t₁ ok fr).timeLeft = 0 ∧
    (tickOnce s t₁ ok fr).smoothProgress = 0 ∧
    (tickOnce s t₁ ok fr).stage = AppStage.COMPLETED ∧
    (tickOnce s t₁ ok fr).activeIntervals = [] ∧
    (tickOnce (tickOnce s t₁ ok fr) t₂ ok₂ fr₂).completeCount =
      (tickOnce s t₁ ok fr).completeCount := by
  have hc : tickOnce s t₁ ok fr = handleComplete s t₁ ok fr :=
    tickOnce_complete s t₁ ok fr e (by simp [hact]) he ht
  have hempty : (tickOnce s t₁ ok fr).activeIntervals = [] := by
    rw [hc]
    exact handleComplete_halts s t₁ ok fr n hti hact
  exact ⟨by rw [hc]; rfl, by rw [hc]; rfl, by rw [hc]; rfl, by rw [hc]; rfl,
    hempty, by rw [tickOnce_idle _ t₂ ok₂ fr₂ hempty]⟩

/-- Witness for C2 on a concrete RUNNING session ticked at its deadline. -/
theorem complete_fires_exactly_once_witness :
    (runningState.stage = AppStage.RUNNING ∧
     runningState.timerIdRef = some 0 ∧
     runningState.activeIntervals = [0] ∧
     runningState.endTimeRef = some 1500000 ∧ (1500000:ℚ) ≤ 1500000) ∧
    ((tickOnce runningState 1500000 true "w2").completeCount =
       runningState.completeCount + 1 ∧
     (tickOnce runningState 1500000 true "w2").timeLeft = 0 ∧
     (tickOnce runningState 1500000 true "w2").smoothProgress = 0 ∧
     (tickOnce runningState 1500000 true "w2").stage = AppStage.COMPLETED ∧
     (tickOnce runningState 1500000 true "w2").activeIntervals = [] ∧
     (tickOnce (tickOnce runningState 1500000 true "w2") 1500030 true "w2b").completeCount =
       (tickOnce runningState 1500000 true "w2").completeCount) :=
  ⟨⟨by decide, by decide, by decide, by decide, by decide⟩,
   complete_fires_exactly_once runningState 0 1500000 1500000 1500030 true true
     "w2" "w2b" (by decide) (by decide) (by decide) (by decide) (by decide)⟩

/-- C6: when the tick evaluator reaches a non-positive remaining duration,
exactly one record is appended to the persistence store, carrying the
session's `durationMinutes`, `category`, `intention` and whatever
`aiMotivation` is attached at that moment, with `completedAt` set to the
completion timestamp; no later tick appends anything further. -/
theorem completion_persists_exactly_once (s : AppState) (n : ℕ)
    (e t₁ t₂ : ℚ) (ok₂ : Bool) (fr fr₂ : String)
    (hti : s.timerIdRef = some n) (hact : s.activeIntervals = [n])
    (he : s.endTimeRef = some e) (ht : e ≤ t₁) :
    (tickOnce s t₁ true fr).history =
      s.history ++
        [{ toTimerSession := { s.session with completedAt := some t₁ },
           id := fr }] ∧
    (tickOnce (tickOnce s t₁ true fr) t₂ ok₂ fr₂).history =
      (tickOnce s t₁ true fr).history := by
  have hc : tickOnce s t₁ true fr = handleComplete s t₁ true fr :=
    tickOnce_complete s t₁ true fr e (by simp [hact]) he ht
  have hempty : (tickOnce s t₁ true fr).activeIntervals = [] := by
    rw [hc]
    exact handleComplete_halts s t₁ true fr n hti hact
  exact ⟨by rw [hc]; rfl, by rw [tickOnce_idle _ t₂ ok₂ fr₂ hempty]⟩

/-- Witness for C6: the spec's scenario session (FOCUS, 25 minutes,
intention "Finish report") completes and is persisted once. -/
theorem completion_persists_exactly_once_witness :
    (runningState.timerIdRef = some 0 ∧
     runningState.activeIntervals = [0] ∧
     runningState.endTimeRef = some 1500000 ∧ (1500000:ℚ) ≤ 1500000) ∧
    ((tickOnce runningState 1500000 true "id1").history =
       runningState.history ++
         [{ toTimerSession :=
              { runningState.session with completedAt := some 1500000 },
            id := "id1" }] ∧
     (tickOnce (tickOnce runningState 1500000 true "id1") 1500030 true "id2").history =
       (tickOnce runningState 1500000 true "id1").history) :=
  ⟨⟨by decide, by decide, by decide, by decide⟩,
   completion_persists_exactly_once runningState 0 1500000 1500000 1500030
     true "id1" "id2" (by decide) (by decide) (by decide) (by decide)⟩

/-- C10: when the persistence append fails during `complete()`, the
machine still enters COMPLETED (with the store left unchanged), the
celebration fetch is still dispatched, and its resolution runs with the
machine remaining in COMPLETED. -/
theorem failed_append_keeps_completed (s : AppState) (e t₁ : ℚ)
    (fr msg : String)
    (hact : s.activeIntervals ≠ []) (he : s.endTimeRef = some e)
    (ht : e ≤ t₁) :
    (tickOnce s t₁ false fr).stage = AppStage.COMPLETED ∧
    (tickOnce s t₁ false fr).history = s.history ∧
    (tickOnce s t₁ false fr).pendingCelebrationFetch = some s.session.category ∧
    (resolveCelebration (Except.ok msg) (tickOnce s t₁ false fr)).stage =
      AppStage.COMPLETED ∧
    (resolveCelebration (Except.ok msg) (tickOnce s t₁ false fr)).celebrationMsg =
      msg := by
  have hc : tickOnce s t₁ false fr = handleComplete s t₁ false fr :=
    tickOnce_complete s t₁ false fr e hact he ht
  exact ⟨by rw [hc]; rfl, by rw [hc]; rfl, by rw [hc]; rfl, by rw [hc]; rfl,
    by rw [hc]; rfl⟩

/-- Witness for C10: a completion whose append fails still lands and
stays in COMPLETED and still shows the celebration message. -/
theorem failed_append_keeps_completed_witness :
    (runningState.activeIntervals ≠ [] ∧
     runningState.endTimeRef = some 1500000 ∧ (1500000:ℚ) ≤ 1500000) ∧
    ((tickOnce runningState 1500000 false "id3").stage = AppStage.COMPLETED ∧
     (tickOnce runningState 1500000 false "id3").history = runningState.history ∧
     (tickOnce runningState 1500000 false "id3").pendingCelebrationFetch =
       some runningState.session.category ∧
     (resolveCelebration (Except.ok "Nice!")
         (tickOnce runningState 1500000 false "id3")).stage = AppStage.COMPLETED ∧
     (resolveCelebration (Except.ok "Nice!")
         (tickOnce runningState 1500000 false "id3")).celebrationMsg = "Nice!") :=
  ⟨⟨by decide, by decide, by decide⟩,
   failed_append_keeps_completed runningState 1500000 1500000 "id3" "Nice!"
     (by decide) (by decide) (by decide)⟩

/-- C8: while the interval callback runs against a fixed `endTimeRef`,
samples of `timeLeft` taken at non-decreasing wall-clock times are
non-increasing (completion forcing `timeLeft = 0` included). -/
theorem running_seconds_monotone (s : AppState) (t₁ t₂ : ℚ)
    (ok₁ ok₂ : Bool) (f₁ f₂ : String) (h : t₁ ≤ t₂) :
    (tickOnce s t₂ ok₂ f₂).timeLeft ≤ (tickOnce s t₁ ok₁ f₁).timeLeft := by
  by_cases hact : s.activeIntervals = []
  · rw [tickOnce_idle s t₂ ok₂ f₂ hact, tickOnce_idle s t₁ ok₁ f₁ hact]
  · cases he : s.endTimeRef with
    | none =>
      unfold tickOnce
      rw [if_neg hact, if_neg hact, he]
    | some e =>
      by_cases h2 : e ≤ t₂
      · rw [tickOnce_complete s t₂ ok₂ f₂ e hact he h2]
        by_cases h1 : e ≤ t₁
        · rw [tickOnce_complete s t₁ ok₁ f₁ e hact he h1]
          exact le_refl 0
        · push_neg at h1
          rw [tickOnce_run s t₁ ok₁ f₁ e hact he h1]
          show (0:ℤ) ≤ ⌈(e - t₁) / 1000⌉
          have hpos : (0:ℚ) < (e - t₁) / 1000 := by
            apply div_pos (by linarith) (by norm_num)
          exact le_of_lt (Int.ceil_pos.mpr hpos)
      · push_neg at h2
        have h1 : t₁ < e := lt_of_le_of_lt h h2
        rw [tickOnce_run s t₂ ok₂ f₂ e hact he h2,
          tickOnce_run s t₁ ok₁ f₁ e hact he h1]
        show ⌈(e - t₂) / 1000⌉ ≤ ⌈(e - t₁) / 1000⌉
        apply Int.ceil_mono
        apply (div_le_div_iff_of_pos_right (by norm_num : (0:ℚ) < 1000)).mpr
        linarith

/-- Witness for C8 on a concrete RUNNING session sampled at 100000ms and
200000ms. -/
theorem running_seconds_monotone_witness :
    (100000:ℚ) ≤ 200000 ∧
    (tickOnce runningState 200000 true "w8b").timeLeft ≤
      (tickOnce runningState 100000 true "w8a").timeLeft :=
  ⟨by decide,
   running_seconds_monotone runningState 100000 200000 true true "w8a" "w8b"
     (by decide)⟩

/-- C5 counterexample: the tick callback clamps the percentage only from
below. On a RUNNING state whose `diff` exceeds `totalDurationRef`
(`endTimeRef = 2500000`, `totalDurationRef = 1500000`, sampled at 0), the
recomputed `smoothProgress` is strictly above 100 and differs from the
spec's two-sided clamp. -/
theorem tick_percentage_overshoot_cex :
    100 < (tickOnce overshootState 0 true "c5").smoothProgress ∧
    (tickOnce overshootState 0 true "c5").smoothProgress ≠
      specClamp ((2500000 - 0) / 1500000 * 100) := by
  constructor
  · norm_num [tickOnce, overshootState, runningState, tickPercentage]
  · norm_num [tickOnce, overshootState, runningState, tickPercentage,
      specClamp]

/-- C5 (amended): the recomputed percentage is `max(0, diff/total*100)` —
clamped only from below — so for ticks with `0 < diff ≤ totalDurationMs`
it coincides with the spec's `clamp(diff/total*100, 0, 100)` and lies in
`[0, 100]`; when `diff > totalDurationMs` it exceeds 100. -/
theorem tick_percentage_in_range (diff total : ℚ)
    (h1 : 0 < total) (h2 : 0 < diff) (h3 : diff ≤ total) :
    tickPercentage diff total = specClamp (diff / total * 100) ∧
    0 ≤ tickPercentage diff total ∧ tickPercentage diff total ≤ 100 := by
  have hge : (0:ℚ) ≤ diff / total * 100 :=
    mul_nonneg (div_nonneg (le_of_lt h2) (le_of_lt h1)) (by norm_num)
  have hle : diff / total * 100 ≤ 100 := by
    have hd1 : diff / total ≤ 1 := (div_le_one h1).mpr h3
    nlinarith
  unfold tickPercentage specClamp
  rw [max_eq_right hge, min_eq_right hle]
  exact ⟨rfl, hge, hle⟩

/-- Witness for C5's amended theorem at `diff = 1`, `total = 2`. -/
theorem tick_percentage_in_range_witness :
    ((0:ℚ) < 2 ∧ (0:ℚ) < 1 ∧ (1:ℚ) ≤ 2) ∧
    (tickPercentage 1 2 = specClamp (1 / 2 * 100) ∧
     0 ≤ tickPercentage 1 2 ∧ tickPercentage 1 2 ≤ 100) :=
  ⟨⟨by decide, by decide, by decide⟩,
   tick_percentage_in_range 1 2 (by decide) (by decide) (by decide)⟩
